import Mathlib

/-!
Shallow embedding of `tools/create_demo_model.py` (ai_messenger repository).

The script has three steps: a model builder (`create_demo_model`), a
vocabulary builder (`create_vocabulary`) and a smoke tester (`test_model`),
orchestrated by `main`.  Pure computations (the vocabulary lists, the
synthetic test input, the declared tensor shapes) are embedded as Lean
functions; the calls into the external ML framework are abstracted as
`Except`-valued step records, and Python's exception flow is embedded by a
`PyResult` type: a function with a `try/except` around its body always
returns `PyResult.normal`, a function without one forwards failures as
`PyResult.raised`.
-/

set_option maxRecDepth 100000

namespace CreateDemoModel

/-- Outcome of running a Python function: either it returns normally
(carrying the lines it printed or the value it returned) or an exception
escapes it. -/
inductive PyResult (α : Type) where
  | normal (value : α)
  | raised (exc : String)
  deriving DecidableEq, Repr

/-- `true` iff the function returned without an exception escaping. -/
def PyResult.isNormal {α : Type} : PyResult α → Bool
  | .normal _ => true
  | .raised _ => false

/-! ### Model parameters (lines 30–33 of the script) -/

def vocab_size : Nat := 5000
def embedding_dim : Nat := 32
def max_length : Nat := 128
def num_categories : Nat := 8

/-! ### The Keras layer stack (lines 37–51) -/

/-- One layer of the `tf.keras.Sequential` model, carrying the parameters
that determine tensor shapes. -/
inductive Layer where
  | embedding (numRows dim : Nat)
  | globalAveragePooling1D
  | dense (units : Nat)
  | dropout (rate : ℚ)
  deriving DecidableEq, Repr

/-- The layer list of the `tf.keras.Sequential` call, in source order. -/
def model_layers : List Layer :=
  [Layer.embedding vocab_size embedding_dim,
   Layer.globalAveragePooling1D,
   Layer.dense 64,
   Layer.dropout (3/10),
   Layer.dense 32,
   Layer.dropout (3/10),
   Layer.dense num_categories]

/-- Shape propagation of a single layer, following the framework's
documented semantics: `Embedding : [b, l] ↦ [b, l, d]`,
`GlobalAveragePooling1D : [b, l, d] ↦ [b, d]`, `Dense u : [b, d] ↦ [b, u]`,
`Dropout` is the identity at inference time. -/
def layerOutShape : Layer → List Nat → Option (List Nat)
  | Layer.embedding _ d, [b, l] => some [b, l, d]
  | Layer.globalAveragePooling1D, [b, _, d] => some [b, d]
  | Layer.dense u, [b, _] => some [b, u]
  | Layer.dropout _, s => some s
  | _, _ => none

/-- Shape of the output tensor obtained by pushing an input shape through
the layer stack. -/
def inferShape : List Layer → List Nat → Option (List Nat)
  | [], s => some s
  | l :: ls, s =>
    match layerOutShape l s with
    | some s' => inferShape ls s'
    | none => none

/-- The input signature of the exported concrete function:
`tf.TensorSpec(shape=[1, max_length], dtype=tf.float32)` (line 72). -/
def input_signature : List Nat := [1, max_length]

/-! ### Vocabulary builder (`create_vocabulary`, lines 105–148) -/

/-- The `keywords` dict of line 111, in Python 3.7+ insertion order. -/
def keywords : List (String × List String) :=
  [("special_tokens", ["[PAD]", "[UNK]"]),
   ("otp", ["otp", "code", "verify", "verification", "authentication", "pin",
            "passcode", "confirm", "security", "temporary"]),
   ("banking", ["bank", "account", "balance", "credited", "debited",
                "transaction", "atm", "withdrawal", "deposit", "statement"]),
   ("finance", ["payment", "invoice", "due", "bill", "loan", "emi",
                "insurance", "credit", "card", "stock", "investment"]),
   ("offers", ["offer", "discount", "sale", "deal", "save", "flat",
               "off", "special", "price", "limited", "hurry"]),
   ("coupons", ["coupon", "promo", "voucher", "redeem", "cashback",
                "reward", "points", "gift"]),
   ("common", ["dear", "customer", "your", "the", "is", "for", "and",
               "to", "from", "on", "at", "in", "with", "by", "as",
               "this", "that", "have", "has", "will", "can", "get",
               "now", "today", "call", "visit", "click", "reply",
               "message", "sms", "alert", "notification", "update"]),
   ("numbers", (List.range 100).map Nat.repr)]

/-- The flattening loop of lines 132–134: `for category, words in
keywords.items(): vocab.extend(words)`. -/
def vocabBase : List String := (keywords.map Prod.snd).flatten

/-- One synthetic filler token, `f'token_\x7bi\x7d'` (line 138). -/
def fillerToken (i : Nat) : String := "token_" ++ Nat.repr i

/-- The padding loop of lines 137–138 applied to an arbitrary flattened
keyword list: `for i in range(len(vocab), 5000): vocab.append(f'token_\x7bi\x7d')`.
Python's `range(a, b)` is empty when `a ≥ b`, which truncated subtraction
reproduces. -/
def create_vocabulary_from (base : List String) : List String :=
  base ++ (List.range' base.length (5000 - base.length)).map fillerToken

/-- The token list built by `create_vocabulary` (lines 131–138). -/
def create_vocabulary : List String := create_vocabulary_from vocabBase

/-- Python's `'\n'.join`: tokens joined by single newlines, no trailing
newline (line 143). -/
def joinNL : List String → String
  | [] => ""
  | [t] => t
  | t :: t' :: ts => t ++ "\n" ++ joinNL (t' :: ts)

/-- The exact text written to `vocab.txt`: `f.write('\n'.join(vocab))`. -/
def vocab_file_content : String := joinNL create_vocabulary

/-- One invocation of the vocabulary builder.  The function reads no input
and consults no ambient state (the script's randomness touches only the
model weights), so the token list is the same whatever the invocation. -/
def create_vocabulary_run (_run : Nat) : List String := create_vocabulary

/-! ### Model builder exception flow (`create_demo_model`, lines 23–103) -/

/-- Outcomes of the framework calls `create_demo_model` makes, abstracted:
building/compiling the Keras model (lines 37–65), `converter.convert()`
(lines 72–92), and writing `sms_classifier.tflite` (lines 96–97).  An
`Except.error` value means that call raised. -/
structure ModelBuildSteps where
  buildCompile : Except String Unit
  convert : Except String (List Nat)
  writeFile : Except String Unit

/-- `create_demo_model` contains no `try`/`except`: the three framework
calls run in order and the first exception escapes to the caller; on
success the function returns the model path. -/
def create_demo_model (s : ModelBuildSteps) : PyResult String :=
  match s.buildCompile with
  | .error e => .raised e
  | .ok _ =>
    match s.convert with
    | .error e => .raised e
    | .ok _ =>
      match s.writeFile with
      | .error e => .raised e
      | .ok _ => .normal "sms_classifier.tflite"

/-! ### Smoke tester (`test_model`, lines 150–181) -/

/-- `np.array([[1, 2, 3, 4, 5] + [0] * 123], dtype=np.float32)` (line
169): one batch row whose values are small integers, hence exact in
floating point; embedded over `ℚ`. -/
def sample_input : List (List ℚ) :=
  [([1, 2, 3, 4, 5] : List ℚ) ++ List.replicate 123 0]

/-- Outcomes of the interpreter calls `test_model` makes, abstracted:
`tf.lite.Interpreter(model_path=...)`, `allocate_tensors()`, the
input/output detail queries, and `invoke()` as a function of the tensor
that was set.  An `Except.error` value means that call raised. -/
structure TestModelSteps where
  load : Except String Unit
  allocate : Except String Unit
  getDetails : Except String (List Nat × List Nat)
  invoke : List (List ℚ) → Except String (List (List ℚ))

/-- The `try:` block body of lines 155–178: load, allocate, query details,
set `sample_input`, invoke, fetch the output. -/
def test_model_body (s : TestModelSteps) : Except String (List (List ℚ)) := do
  let _ ← s.load
  let _ ← s.allocate
  let _ ← s.getDetails
  s.invoke sample_input

/-- `test_model` wraps its whole body in `try ... except Exception as e`
(lines 155–181): every failure becomes the printed warning of line 181 and
the function returns normally either way. -/
def test_model (_model_path : String) (s : TestModelSteps) : PyResult (List String) :=
  match test_model_body s with
  | .ok out =>
    .normal ["Sample inference successful!",
             "Output rows: " ++ Nat.repr out.length]
  | .error e => .normal ["⚠ Error testing model: " ++ e]

/-! ### Orchestration (`main`, lines 183–214) -/

/-- `main` calls the three steps in order with no exception handling of its
own: an exception escaping `create_demo_model` escapes `main`;
`create_vocabulary` is pure list construction and cannot raise; whatever
`test_model` returns, `main` then prints the banner and returns. -/
def main (ms : ModelBuildSteps) (ts : TestModelSteps) : PyResult Unit :=
  match create_demo_model ms with
  | .raised e => .raised e
  | .normal model_path =>
    let _vocab := create_vocabulary
    match test_model model_path ts with
    | .raised e => .raised e
    | .normal _ => .normal ()

/-! ### Helper lemmas -/

lemma vocabBase_length : vocabBase.length = 185 := by decide

lemma create_vocabulary_eq :
    create_vocabulary = vocabBase ++ (List.range' 185 4815).map fillerToken := by
  simp [create_vocabulary, create_vocabulary_from, vocabBase_length]

lemma create_vocabulary_length : create_vocabulary.length = 5000 := by
  rw [create_vocabulary_eq]
  simp [vocabBase_length]

lemma joinNL_cons_of_ne (t : String) (ts : List String) (h : ts ≠ []) :
    joinNL (t :: ts) = t ++ "\n" ++ joinNL ts := by
  cases ts with
  | nil => exact absurd rfl h
  | cons t' ts' => rfl

lemma joinNL_concat (l : List String) (x : String) :
    ∃ p, joinNL (l ++ [x]) = p ++ x := by
  induction l with
  | nil =>
    refine ⟨"", ?_⟩
    show x = "" ++ x
    apply String.ext
    rw [String.data_append]
    rfl
  | cons y l ih =>
    cases l with
    | nil => exact ⟨y ++ "\n", rfl⟩
    | cons z t =>
      obtain ⟨p, hp⟩ := ih
      refine ⟨(y ++ "\n") ++ p, ?_⟩
      show (y ++ "\n") ++ joinNL ((z :: t) ++ [x]) = (y ++ "\n") ++ p ++ x
      rw [hp]
      simp [String.append_assoc]

lemma digitChar_ne_newline (n : Nat) : Nat.digitChar n ≠ '\n' := by
  by_cases h0 : n = 0
  · subst h0; decide
  by_cases h1 : n = 1
  · subst h1; decide
  by_cases h2 : n = 2
  · subst h2; decide
  by_cases h3 : n = 3
  · subst h3; decide
  by_cases h4 : n = 4
  · subst h4; decide
  by_cases h5 : n = 5
  · subst h5; decide
  by_cases h6 : n = 6
  · subst h6; decide
  by_cases h7 : n = 7
  · subst h7; decide
  by_cases h8 : n = 8
  · subst h8; decide
  by_cases h9 : n = 9
  · subst h9; decide
  by_cases h10 : n = 10
  · subst h10; decide
  by_cases h11 : n = 11
  · subst h11; decide
  by_cases h12 : n = 12
  · subst h12; decide
  by_cases h13 : n = 13
  · subst h13; decide
  by_cases h14 : n = 14
  · subst h14; decide
  by_cases h15 : n = 15
  · subst h15; decide
  unfold Nat.digitChar
  rw [if_neg h0, if_neg h1, if_neg h2, if_neg h3, if_neg h4, if_neg h5, if_neg h6,
      if_neg h7, if_neg h8, if_neg h9, if_neg h10, if_neg h11, if_neg h12, if_neg h13,
      if_neg h14, if_neg h15]
  decide

lemma toDigitsCore_no_newline (b : Nat) :
    ∀ (fuel n : Nat) (ds : List Char), '\n' ∉ ds →
      '\n' ∉ Nat.toDigitsCore b fuel n ds := by
  intro fuel
  induction fuel with
  | zero => intro n ds h; simpa [Nat.toDigitsCore] using h
  | succ fuel ih =>
    intro n ds h
    rw [Nat.toDigitsCore]
    have hcons : '\n' ∉ Nat.digitChar (n % b) :: ds := by
      intro hc
      rcases List.mem_cons.mp hc with h1 | h1
      · exact digitChar_ne_newline _ h1.symm
      · exact h h1
    split
    · exact hcons
    · exact ih _ _ hcons

lemma repr_no_newline (n : Nat) : (Nat.repr n).data.count '\n' = 0 := by
  rw [List.count_eq_zero]
  show '\n' ∉ Nat.toDigitsCore 10 (n + 1) n []
  exact toDigitsCore_no_newline 10 (n + 1) n [] (by simp)

lemma fillerToken_no_newline (i : Nat) : (fillerToken i).data.count '\n' = 0 := by
  show (("token_" : String) ++ Nat.repr i).data.count '\n' = 0
  rw [String.data_append, List.count_append, repr_no_newline]
  decide

lemma create_vocabulary_no_newline :
    ∀ t ∈ create_vocabulary, t.data.count '\n' = 0 := by
  have hall : vocabBase.all (fun t => t.data.count '\n' == 0) = true := by decide
  intro t ht
  rw [create_vocabulary_eq] at ht
  rcases List.mem_append.mp ht with h | h
  · have := List.all_eq_true.mp hall t h
    simpa using this
  · obtain ⟨i, _, rfl⟩ := List.mem_map.mp h
    exact fillerToken_no_newline i

lemma count_joinNL : ∀ (l : List String), (∀ t ∈ l, t.data.count '\n' = 0) →
    (joinNL l).data.count '\n' = l.length - 1
  | [], _ => rfl
  | [t], h => by
    have ht := h t (by simp)
    simpa [joinNL] using ht
  | t :: t' :: ts, h => by
    have ht := h t (by simp)
    have hrec := count_joinNL (t' :: ts) (fun u hu => h u (by simp [hu]))
    show ((t ++ "\n") ++ joinNL (t' :: ts)).data.count '\n' = (t :: t' :: ts).length - 1
    simp only [String.data_append, List.count_append]
    rw [ht, hrec]
    have hn : List.count '\n' "\n".data = 1 := rfl
    rw [hn]
    simp only [List.length_cons]
    omega

lemma create_vocabulary_concat :
    create_vocabulary
      = (vocabBase ++ (List.range' 185 4814).map fillerToken) ++ [fillerToken 4999] := by
  rw [create_vocabulary_eq]
  have h : (4815 : Nat) = 4814 + 1 := rfl
  rw [h, List.range'_concat, List.map_append, ← List.append_assoc]
  have h2 : (185 + 1 * 4814 : Nat) = 4999 := by norm_num
  rw [h2]
  simp only [List.map_cons, List.map_nil]

end CreateDemoModel

namespace CreateDemoModel

/-! ### Claim theorems -/

/-- C1: the generated vocabulary always holds exactly 5000 tokens: padding
fills any shortfall of the flattened hand-authored lists up to exactly
5000, independent of how many hand-authored keywords exist, while a
hand-authored list longer than 5000 is not truncated and silently exceeds
the capacity. -/
theorem vocab_padding_invariant :
    create_vocabulary.length = 5000
    ∧ (∀ base : List String, base.length ≤ 5000 →
        (create_vocabulary_from base).length = 5000)
    ∧ (∀ base : List String, 5000 < base.length →
        (create_vocabulary_from base).length = base.length) := by
  refine ⟨create_vocabulary_length, ?_, ?_⟩ <;>
    · intro base h
      simp [create_vocabulary_from]
      omega

/-- Witness for C1: a 200-entry keyword list is padded to exactly 5000,
and a 5001-entry keyword list yields 5001 tokens. -/
theorem vocab_padding_invariant_wit :
    ((List.replicate 200 "w").length ≤ 5000
      ∧ (create_vocabulary_from (List.replicate 200 "w")).length = 5000)
    ∧ (5000 < (List.replicate 5001 "w").length
      ∧ (create_vocabulary_from (List.replicate 5001 "w")).length = 5001) := by
  have h200 : (List.replicate 200 "w").length ≤ 5000 := by
    rw [List.length_replicate]; omega
  have h5001 : 5000 < (List.replicate 5001 "w").length := by
    rw [List.length_replicate]; omega
  constructor
  · exact ⟨h200, vocab_padding_invariant.2.1 _ h200⟩
  · refine ⟨h5001, ?_⟩
    rw [vocab_padding_invariant.2.2 (List.replicate 5001 "w") h5001, List.length_replicate]

/-- C2: `test_model` never lets an exception escape: whatever its
interpreter calls do — including failing to load a corrupted model file —
it returns normally, and a `main` run whose build phase succeeded returns
normally whatever the smoke-test steps do, so the smoke test never changes
the exit status. -/
theorem test_model_never_raises :
    (∀ (path : String) (s : TestModelSteps), (test_model path s).isNormal = true)
    ∧ (∀ (ms : ModelBuildSteps) (ts : TestModelSteps),
        (create_demo_model ms).isNormal = true → (main ms ts).isNormal = true) := by
  constructor
  · intro path s
    unfold test_model
    cases test_model_body s <;> rfl
  · intro ms ts h
    unfold main
    cases hc : create_demo_model ms with
    | raised e => rw [hc] at h; exact absurd h (by simp [PyResult.isNormal])
    | normal p =>
      unfold test_model
      cases test_model_body ts <;> rfl

/-- Witness for C2: with a successful build and a smoke test whose model
load raises (corrupted file), `main` still returns normally. -/
theorem test_model_never_raises_wit :
    (create_demo_model ⟨Except.ok (), Except.ok [], Except.ok ()⟩).isNormal = true
    ∧ (main ⟨Except.ok (), Except.ok [], Except.ok ()⟩
        ⟨Except.error "corrupted model file", Except.ok (),
         Except.ok ([1, 128], [1, 8]), fun _ => Except.error "not loaded"⟩).isNormal = true := by
  have h : (create_demo_model ⟨Except.ok (), Except.ok [], Except.ok ()⟩).isNormal = true := rfl
  exact ⟨h, test_model_never_raises.2 _ _ h⟩

/-- C4: the exported concrete function declares input shape (1, 128), and
pushing that shape through the layer stack yields output shape (1, 8),
fixed by the final dense layer's `num_categories = 8` units. -/
theorem declared_tensor_shapes :
    input_signature = [1, 128]
    ∧ inferShape model_layers input_signature = some [1, 8]
    ∧ model_layers.getLast? = some (Layer.dense num_categories)
    ∧ num_categories = 8 :=
  ⟨rfl, rfl, rfl, rfl⟩

/-- C5: `create_demo_model` has no handler: whichever framework step
fails first (build/compile, convert, write), the exception escapes it, and
`main` forwards it unchanged, terminating the run abnormally. -/
theorem model_build_errors_fatal :
    (∀ (ms : ModelBuildSteps) (e : String),
      ms.buildCompile = Except.error e → create_demo_model ms = PyResult.raised e)
    ∧ (∀ (ms : ModelBuildSteps) (e : String),
      ms.buildCompile = Except.ok () → ms.convert = Except.error e →
        create_demo_model ms = PyResult.raised e)
    ∧ (∀ (ms : ModelBuildSteps) (e : String) (b : List Nat),
      ms.buildCompile = Except.ok () → ms.convert = Except.ok b →
        ms.writeFile = Except.error e → create_demo_model ms = PyResult.raised e)
    ∧ (∀ (ms : ModelBuildSteps) (ts : TestModelSteps) (e : String),
      create_demo_model ms = PyResult.raised e → main ms ts = PyResult.raised e) := by
  refine ⟨?_, ?_, ?_, ?_⟩
  · intro ms e h1
    unfold create_demo_model
    rw [h1]
  · intro ms e h1 h2
    unfold create_demo_model
    rw [h1, h2]
  · intro ms e b h1 h2 h3
    unfold create_demo_model
    rw [h1, h2, h3]
  · intro ms ts e h
    unfold main
    rw [h]

/-- Witness for C5: concrete failing build steps at each stage, and the
propagation of a build failure through `main`. -/
theorem model_build_errors_fatal_wit :
    create_demo_model ⟨Except.error "unsupported op", Except.ok [], Except.ok ()⟩
      = PyResult.raised "unsupported op"
    ∧ create_demo_model ⟨Except.ok (), Except.error "conversion failed", Except.ok ()⟩
      = PyResult.raised "conversion failed"
    ∧ create_demo_model ⟨Except.ok (), Except.ok [1, 2], Except.error "disk full"⟩
      = PyResult.raised "disk full"
    ∧ main ⟨Except.error "unsupported op", Except.ok [], Except.ok ()⟩
        ⟨Except.ok (), Except.ok (), Except.ok ([1, 128], [1, 8]),
         fun _ => Except.ok [[0, 0, 0, 0, 0, 0, 0, 0]]⟩
      = PyResult.raised "unsupported op" := by
  refine ⟨model_build_errors_fatal.1 _ _ rfl,
          model_build_errors_fatal.2.1 _ _ rfl rfl,
          model_build_errors_fatal.2.2.1 _ _ _ rfl rfl rfl,
          model_build_errors_fatal.2.2.2 _ _ _
            (model_build_errors_fatal.1 _ _ rfl)⟩

/-- C6: the smoke tester's synthetic input is exactly one row of 128
values: the ascending nonzero integers 1, 2, 3, 4, 5 followed by 123
zeros, matching the model's fixed input width `max_length = 128`. -/
theorem sample_input_shape :
    ∃ row : List ℚ, sample_input = [row]
      ∧ row.length = 128
      ∧ row.take 5 = [1, 2, 3, 4, 5]
      ∧ row.drop 5 = List.replicate 123 0
      ∧ max_length = 128 := by
  refine ⟨([1, 2, 3, 4, 5] : List ℚ) ++ List.replicate 123 0, rfl, by simp, ?_, ?_, rfl⟩ <;> decide

/-- C7: the vocabulary target and the embedding table's row count are the
same constant 5000: the first layer is `Embedding(vocab_size, ...)` with
`vocab_size = 5000`, and the generated vocabulary's length equals that
same value. -/
theorem vocab_size_matches_embedding_rows :
    model_layers.head? = some (Layer.embedding vocab_size embedding_dim)
    ∧ vocab_size = 5000
    ∧ create_vocabulary.length = vocab_size :=
  ⟨rfl, rfl, create_vocabulary_length⟩

/-- C8: any two invocations of the vocabulary builder produce token lists
of identical length, namely 5000. -/
theorem vocabulary_length_idempotent :
    ∀ r₁ r₂ : Nat,
      (create_vocabulary_run r₁).length = (create_vocabulary_run r₂).length
      ∧ (create_vocabulary_run r₁).length = 5000 :=
  fun _ _ => ⟨rfl, create_vocabulary_length⟩

/-- C3: the vocabulary is the seven hand-authored category lists in their
fixed order, then the numerals 0–99, then `token_<i>` fillers, so the
first two tokens — and hence the first two lines of the file — are exactly
`[PAD]` and `[UNK]`. -/
theorem vocabulary_category_order :
    vocabBase
      = ["[PAD]", "[UNK]"]
        ++ ["otp", "code", "verify", "verification", "authentication", "pin",
            "passcode", "confirm", "security", "temporary"]
        ++ ["bank", "account", "balance", "credited", "debited",
            "transaction", "atm", "withdrawal", "deposit", "statement"]
        ++ ["payment", "invoice", "due", "bill", "loan", "emi",
            "insurance", "credit", "card", "stock", "investment"]
        ++ ["offer", "discount", "sale", "deal", "save", "flat",
            "off", "special", "price", "limited", "hurry"]
        ++ ["coupon", "promo", "voucher", "redeem", "cashback",
            "reward", "points", "gift"]
        ++ ["dear", "customer", "your", "the", "is", "for", "and",
            "to", "from", "on", "at", "in", "with", "by", "as",
            "this", "that", "have", "has", "will", "can", "get",
            "now", "today", "call", "visit", "click", "reply",
            "message", "sms", "alert", "notification", "update"]
        ++ (List.range 100).map Nat.repr
    ∧ create_vocabulary = vocabBase ++ (List.range' 185 4815).map fillerToken
    ∧ create_vocabulary.take 2 = ["[PAD]", "[UNK]"]
    ∧ ∃ rest, vocab_file_content = "[PAD]" ++ "\n" ++ ("[UNK]" ++ "\n" ++ rest) := by
  refine ⟨by decide, create_vocabulary_eq, rfl, ?_⟩
  have e2 : create_vocabulary = "[PAD]" :: "[UNK]" :: create_vocabulary.drop 2 := rfl
  have hlen : (create_vocabulary.drop 2).length = 4998 := by
    rw [List.length_drop, create_vocabulary_length]
  have hne : create_vocabulary.drop 2 ≠ [] := by
    intro hnil
    rw [hnil] at hlen
    exact absurd hlen (by decide)
  refine ⟨joinNL (create_vocabulary.drop 2), ?_⟩
  show joinNL create_vocabulary = _
  nth_rewrite 1 [e2]
  rw [joinNL_cons_of_ne _ _ (by simp), joinNL_cons_of_ne _ _ hne]

/-- C9: every filler token is self-indexing: with the 185 hand-authored
tokens in front, position `i` for `185 ≤ i < 5000` holds exactly the
string `token_<i>`, the decimal number in the name being the token's own
zero-based vocabulary id. -/
theorem filler_tokens_self_indexing :
    vocabBase.length = 185
    ∧ ∀ i : Nat, 185 ≤ i → i < 5000 →
        create_vocabulary[i]? = some ("token_" ++ Nat.repr i) := by
  refine ⟨vocabBase_length, ?_⟩
  intro i h1 h2
  rw [create_vocabulary_eq,
      List.getElem?_append_right (by rw [vocabBase_length]; exact h1),
      vocabBase_length, List.getElem?_map,
      List.getElem?_range' 185 1 (show i - 185 < 4815 by omega)]
  have h3 : 185 + 1 * (i - 185) = i := by omega
  rw [h3]
  rfl

/-- Witness for C9: position 190 of the generated vocabulary holds exactly
the string token_190. -/
theorem filler_tokens_self_indexing_wit :
    (185 ≤ 190 ∧ 190 < 5000)
    ∧ create_vocabulary[190]? = some ("token_" ++ Nat.repr 190) :=
  ⟨⟨by omega, by omega⟩, filler_tokens_self_indexing.2 190 (by omega) (by omega)⟩

/-- C10: the file text is the 5000 tokens joined by single newlines with
no trailing newline: it contains exactly 4999 newline characters, ends
with the text of the last token `token_4999`, and its final character is
that token's digit, not a newline. -/
theorem vocab_file_newline_layout :
    vocab_file_content.data.count '\n' = 4999
    ∧ create_vocabulary.length = 5000
    ∧ create_vocabulary.getLast? = some "token_4999"
    ∧ (∃ p, vocab_file_content = p ++ "token_4999")
    ∧ vocab_file_content.data.getLast? = some '9' := by
  have hcount : vocab_file_content.data.count '\n' = 4999 := by
    show (joinNL create_vocabulary).data.count '\n' = 4999
    rw [count_joinNL create_vocabulary create_vocabulary_no_newline,
        create_vocabulary_length]
  have hfiller : fillerToken 4999 = "token_4999" := rfl
  have hlast : create_vocabulary.getLast? = some "token_4999" := by
    rw [create_vocabulary_concat, List.getLast?_concat, hfiller]
  have hends : ∃ p, vocab_file_content = p ++ "token_4999" := by
    obtain ⟨p, hp⟩ :=
      joinNL_concat (vocabBase ++ (List.range' 185 4814).map fillerToken) (fillerToken 4999)
    refine ⟨p, ?_⟩
    show joinNL create_vocabulary = _
    rw [create_vocabulary_concat, hp, hfiller]
  have hlastchar : vocab_file_content.data.getLast? = some '9' := by
    obtain ⟨p, hp⟩ := hends
    rw [hp, String.data_append, List.getLast?_append]
    rfl
  exact ⟨hcount, create_vocabulary_length, hlast, hends, hlastchar⟩

end CreateDemoModel
